import Mathlib

/-!
# Verification of the librechat-admin API against its specification

Shallow embedding of `admin-api/src/server.js` and `admin-api/src/k8s.service.js`.
JavaScript values that may be `undefined` are modelled as `Option`; JavaScript
truthiness on strings (`undefined`, `null` and `""` are falsy) is modelled by
`truthyS`; MongoDB `ObjectId` values are modelled by their 24-character
hexadecimal string rendering; clock reads (`new Date()`) are passed in as an
explicit `now : Nat` (epoch milliseconds).
-/

namespace LibreChatAdmin

/-- JavaScript truthiness of a possibly-undefined string: `undefined` and the
empty string are falsy, every other string is truthy. -/
def truthyS : Option String → Bool
  | none => false
  | some s => s ≠ ""

/-- JavaScript `a || b` on possibly-undefined strings: returns `a` when `a` is
truthy, otherwise returns `b` (whatever `b`'s truthiness). -/
def jsOr (a b : Option String) : Option String :=
  if truthyS a then a else b

/-- JavaScript `a || b` where `b` is a plain (defined) string, so the result is
a plain string. -/
def jsOrD (a : Option String) (b : String) : String :=
  match a with
  | some s => if s ≠ "" then s else b
  | none => b

/-- Rendering of a possibly-undefined string inside a template literal:
`undefined` prints as the string "undefined". -/
def tmpl (a : Option String) : String := a.getD "undefined"

-- ==================== ACTOR EXTRACTION (server.js:61-68) ====================

/-- The four OAuth2-Proxy identity headers read by the server. `none` models
an absent header. -/
structure Headers where
  xForwardedEmail : Option String
  xAuthRequestEmail : Option String
  xForwardedUser : Option String
  xAuthRequestUser : Option String
deriving DecidableEq, Repr

/-- `getUserFromHeaders` (server.js:64-68):
`userEmail = h['x-forwarded-email'] || h['x-auth-request-email'] || 'unknown'`;
`userName = h['x-forwarded-user'] || h['x-auth-request-user'] || userEmail`.
Returns the `(userEmail, userName)` pair. -/
def getUserFromHeaders (h : Headers) : String × String :=
  let userEmail := jsOrD (jsOr h.xForwardedEmail h.xAuthRequestEmail) "unknown"
  let userName := jsOrD (jsOr h.xForwardedUser h.xAuthRequestUser) userEmail
  (userEmail, userName)

-- ==================== POD FORMATTING (k8s.service.js:153-219) ====================

/-- One element of a raw pod's `status.containerStatuses`. `state` holds the
keys of the container's `state` object (the code reads `Object.keys(c.state || {})[0]`). -/
structure ContainerStatus where
  name : String
  ready : Bool
  restartCount : Option Nat
  image : String
  state : List String
deriving DecidableEq, Repr

/-- One element of a raw pod's `status.conditions`. The `status` field of a
condition is the string "True", "False" or "Unknown"; `reason`/`message` may be
absent. -/
structure PodCondition where
  condStatus : String
  reason : Option String
  message : Option String
deriving DecidableEq, Repr

/-- The fields of a raw Kubernetes pod object read by the service. `nsp` is the
pod's `metadata.namespace` (the word `namespace` is reserved in Lean). -/
structure PodRaw where
  name : String
  nsp : String
  phase : String
  containerStatuses : Option (List ContainerStatus)
  conditions : Option (List PodCondition)
  creationTimestamp : Nat
  podIP : Option String
  nodeName : Option String
  labels : Option (List (String × String))
  specContainers : List String
deriving DecidableEq, Repr

/-- `calculateAge` (k8s.service.js:207-219): a single-unit age string from the
millisecond difference `now - created` (days, else hours, else minutes, else
seconds). The JS subtraction can be negative; we keep `Int` with floor
division as `Math.floor` behaves on the successive quotients of a
nonnegative difference, and truncation-at-zero for the (never exercised)
negative case is inherited from `Int.toNat` only in the final rendering of
seconds; all claims are independent of this string. -/
def calculateAge (now created : Nat) : String :=
  let diff : Int := (now : Int) - (created : Int)
  let seconds : Int := Int.fdiv diff 1000
  let minutes : Int := Int.fdiv seconds 60
  let hours : Int := Int.fdiv minutes 60
  let days : Int := Int.fdiv hours 24
  if days > 0 then toString days ++ "d"
  else if hours > 0 then toString hours ++ "h"
  else if minutes > 0 then toString minutes ++ "m"
  else toString seconds ++ "s"

/-- One element of the `containers` array produced by `formatPodInfo`. -/
structure ContainerInfo where
  name : String
  ready : Bool
  restartCount : Option Nat
  image : String
  state : Option String
deriving DecidableEq, Repr

/-- The formatted pod object produced by `formatPodInfo`. `statusReason` is
`Option String` because `failedCondition.reason || failedCondition.message`
is `undefined` when both fields are absent; it is initialised to `some ""`. -/
structure PodInfo where
  id : String
  name : String
  nsp : String
  status : String
  statusReason : Option String
  phase : String
  ready : String
  restarts : Nat
  age : String
  createdAt : Nat
  ip : String
  node : String
  containers : List ContainerInfo
  labels : List (String × String)
deriving DecidableEq, Repr

/-- The status-derivation block of `formatPodInfo` (k8s.service.js:157-170):
the `(status, statusReason)` pair. Status derivation: when
`phase == 'Running'`, status is "Running" iff every container status reports
ready, else "Not Ready", and `statusReason` keeps its initial `''`; otherwise
status echoes the phase and the first condition with `status === 'False'`
contributes `reason || message` as `statusReason`. -/
def podStatusPair (pod : PodRaw) : String × Option String :=
  let containerStatuses := pod.containerStatuses.getD []
  let conditions := pod.conditions.getD []
  if pod.phase = "Running" then
    let allReady := containerStatuses.all (fun c => c.ready)
    (if allReady then "Running" else "Not Ready", some "")
  else
    match conditions.find? (fun c => c.condStatus = "False") with
    | some failedCondition =>
        (pod.phase, jsOr failedCondition.reason failedCondition.message)
    | none => (pod.phase, some "")

/-- The remainder of `formatPodInfo` around `podStatusPair`. -/
def formatPodInfo (now : Nat) (pod : PodRaw) : PodInfo :=
  let containerStatuses := pod.containerStatuses.getD []
  let statusPair := podStatusPair pod
  { id := pod.nsp ++ "::" ++ pod.name
    name := pod.name
    nsp := pod.nsp
    status := statusPair.1
    statusReason := statusPair.2
    phase := pod.phase
    ready := toString (containerStatuses.filter (fun c => c.ready)).length ++ "/"
               ++ toString containerStatuses.length
    restarts := (containerStatuses.map (fun c => c.restartCount.getD 0)).sum
    age := calculateAge now pod.creationTimestamp
    createdAt := pod.creationTimestamp
    ip := jsOrD pod.podIP "N/A"
    node := jsOrD pod.nodeName "N/A"
    containers := containerStatuses.map (fun c =>
      { name := c.name, ready := c.ready, restartCount := c.restartCount,
        image := c.image, state := c.state.head? })
    labels := pod.labels.getD [] }

-- ==================== HEALTH ROLLUP (server.js:1247-1323) ====================

/-- A `{status, reason}` pair as produced by `getServiceStatus`. -/
structure ServiceStatus where
  status : String
  reason : String
deriving DecidableEq, Repr

/-- `getServiceStatus` (server.js:1265-1271): empty bucket is down ("No pods
found"); zero Running pods is down ("No running pods"); some but not all
Running is degraded ("Some pods not running"); otherwise healthy ("All pods
running"). A pod counts as running when its derived `status` string equals
"Running". -/
def getServiceStatus (pods : List PodInfo) : ServiceStatus :=
  if pods.isEmpty then ⟨"down", "No pods found"⟩
  else
    let runningPods := pods.filter (fun p => p.status = "Running")
    if runningPods.length = 0 then ⟨"down", "No running pods"⟩
    else if runningPods.length < pods.length then ⟨"degraded", "Some pods not running"⟩
    else ⟨"healthy", "All pods running"⟩

/-- Outcome of `db.admin().ping()` in the system-status handler. -/
inductive PingOutcome
  | ok
  | fail (msg : String)
deriving DecidableEq, Repr

/-- The `mongodb` bucket of the system status (server.js:1273-1282): starts
from the pod-derived status; when a db handle exists, a successful ping
overrides it with healthy/"Connected and responsive" and a throwing ping
overrides it with down/"Connection error: <message>"; with no db handle
(`dbConn = none`) the pod-derived status stands. -/
def mongoServiceStatus (mongoPods : List PodInfo) (dbConn : Option PingOutcome) : ServiceStatus :=
  let base := getServiceStatus mongoPods
  match dbConn with
  | none => base
  | some .ok => ⟨"healthy", "Connected and responsive"⟩
  | some (.fail msg) => ⟨"down", "Connection error: " ++ msg⟩

-- ==================== MONGODB OBJECTID MODEL ====================

/-- Hexadecimal digit test (`0-9a-fA-F`). -/
def isHexChar (c : Char) : Bool :=
  c.isDigit || ('a' ≤ c && c ≤ 'f') || ('A' ≤ c && c ≤ 'F')

/-- Validity of a string argument to the driver's `ObjectId` constructor:
a 24-character hexadecimal string. Any other string makes `new ObjectId(s)`
throw. -/
def isValidOidString (s : String) : Bool :=
  s.length = 24 && s.data.all isHexChar

/-- The message of the error thrown by the bson `ObjectId` constructor on a
string that is not 24 hexadecimal characters. -/
def objectIdErrMsg : String :=
  "input must be a 24 character hex string, 12 byte Uint8Array, or an integer"

/-- `new ObjectId(s)`: the store-native key is modelled by its hex-string
rendering, so construction either returns the string itself or throws. -/
def mkObjectId (s : String) : Except String String :=
  if isValidOidString s then .ok s else .error objectIdErrMsg

-- ==================== DOCUMENT MODEL ====================

/-- A stored user document; `oid` is the store-native `_id` (as its hex
string). Fields the handlers read; absent fields are `none`. -/
structure UserDoc where
  oid : String
  username : Option String
  name : Option String
  email : Option String
  role : Option String
  provider : Option String
  emailVerified : Option Bool
  avatar : Option String
  createdAt : Nat
  updatedAt : Nat
deriving DecidableEq, Repr

/-- The nested permission-flag tree of a role, as in the default structure
built by `POST /api/roles` (server.js:380-393). -/
structure Permissions where
  bookmarksUse : Bool
  promptsSharedGlobal : Bool
  promptsUse : Bool
  promptsCreate : Bool
  memoriesUse : Bool
  memoriesCreate : Bool
  memoriesUpdate : Bool
  memoriesRead : Bool
  memoriesOptOut : Bool
  agentsSharedGlobal : Bool
  agentsUse : Bool
  agentsCreate : Bool
  multiConvoUse : Bool
  temporaryChatUse : Bool
  runCodeUse : Bool
  webSearchUse : Bool
  peoplePickerViewUsers : Bool
  peoplePickerViewGroups : Bool
  peoplePickerViewRoles : Bool
  marketplaceUse : Bool
  fileSearchUse : Bool
  fileCitationsUse : Bool
deriving DecidableEq, Repr

/-- The all-false default permission tree applied to a role created without
explicit permissions (server.js:380-393). -/
def defaultPermissions : Permissions :=
  ⟨false, false, false, false, false, false, false, false, false, false, false,
   false, false, false, false, false, false, false, false, false, false, false⟩

/-- A stored role document. -/
structure RoleDoc where
  oid : String
  name : String
  permissions : Permissions
deriving DecidableEq, Repr

/-- A stored conversation document. `conversationId` is the application
conversation identifier, which may be absent. -/
structure ConvoDoc where
  oid : String
  conversationId : Option String
  title : Option String
  user : Option String
  endpoint : Option String
  model : Option String
  createdAt : Nat
  updatedAt : Nat
deriving DecidableEq, Repr

/-- A stored agent document. `aid` is the application-assigned `id` field
(`agent_` + 21 alphanumerics); it may be absent on documents not created
through this API. -/
structure AgentDoc where
  oid : String
  aid : Option String
  name : Option String
  description : Option String
  provider : Option String
  model : Option String
  createdAt : Nat
  updatedAt : Nat
deriving DecidableEq, Repr

/-- A stored transaction document with the fields the cost handler reads:
signed raw token amount, signed token value, owning user reference and
creation time. -/
structure TxnDoc where
  oid : String
  user : String
  rawAmount : Int
  tokenValue : Int
  createdAt : Nat
deriving DecidableEq, Repr

/-- The free-form `data` payload of an audit record, modelled as a list of
key/value pairs with possibly-undefined values. -/
abbrev AuditData := List (String × Option String)

/-- An audit-log document as written by `createAuditLog` (server.js:42-51). -/
structure AuditDoc where
  action : String
  resource : String
  resourceId : String
  userEmail : String
  userName : String
  data : AuditData
  ipAddress : Option String
  timestamp : Nat
deriving DecidableEq, Repr

/-- The document store: one list per collection the modelled handlers touch.
MongoDB `findOne`/`deleteOne` on a filter are modelled as first-match
operations on the list. -/
structure Store where
  users : List UserDoc
  roles : List RoleDoc
  conversations : List ConvoDoc
  agents : List AgentDoc
  transactions : List TxnDoc
  auditLogs : List AuditDoc
deriving DecidableEq, Repr

-- ==================== AUDIT INTERCEPTOR (server.js:40-59) ====================

/-- `createAuditLog` (server.js:40-59). The whole body sits in a
`try { insertOne } catch { console.error }`: when the audit insert succeeds
(`insertOk = true`) one record is appended; when it throws the error is
logged and discarded, the store is left unchanged, and — crucially — the
function's type shows it never propagates an error to the caller. -/
def createAuditLog (s : Store) (insertOk : Bool) (action resource resourceId : String)
    (userEmail userName : String) (data : AuditData) (ipAddress : Option String)
    (now : Nat) : Store :=
  if insertOk then
    { s with auditLogs := s.auditLogs ++
        [⟨action, resource, resourceId, userEmail, userName, data, ipAddress, now⟩] }
  else s

-- ==================== HTTP RESPONSE SHAPES ====================

/-- An HTTP response: status code plus a typed body. -/
structure Resp (α : Type) where
  status : Nat
  body : α
deriving DecidableEq, Repr

/-- Body of an id-keyed endpoint that on success returns a document and on
failure returns `{error: message}`; on delete success it returns `{id}`. -/
inductive DocResult (α : Type)
  | doc (d : α)
  | deletedId (id : String)
  | err (msg : String)
deriving DecidableEq, Repr

-- ==================== LIST/SORT/PAGINATION HELPERS ====================

/-- Insert `x` into a list ordered by the boolean relation `le` (insertion
step of a stable insertion sort). -/
def insertSorted {α : Type} (le : α → α → Bool) (x : α) : List α → List α
  | [] => [x]
  | y :: ys => if le y x then y :: insertSorted le x ys else x :: y :: ys

/-- Stable insertion sort; models the store's single-field sort. -/
def sortBy {α : Type} (le : α → α → Bool) : List α → List α
  | [] => []
  | x :: xs => insertSorted le x (sortBy le xs)

/-- Sort by a `Nat` key, descending when `desc` (the handlers pass
`order === 'desc' ? -1 : 1` to the store sort). -/
def sortNatKey {α : Type} (desc : Bool) (key : α → Nat) (l : List α) : List α :=
  sortBy (fun a b => if desc then decide (key b ≤ key a) else decide (key a ≤ key b)) l

/-- `skip((page-1)*limit).limit(limit)` of the list handlers. -/
def paginate {α : Type} (page limit : Nat) (l : List α) : List α :=
  (l.drop ((page - 1) * limit)).take limit

/-- Replace the first element satisfying `p` by its image under `f`
(MongoDB `findOneAndUpdate` on the store model). -/
def updateFirst {α : Type} (p : α → Bool) (f : α → α) : List α → List α
  | [] => []
  | x :: xs => if p x then f x :: xs else x :: updateFirst p f xs

-- ==================== USERS ENDPOINTS (server.js:82-228) ====================

/-- A list-item of `GET /api/users` (server.js:97-109): explicit field
selection with `role: user.role || 'USER'` and
`emailVerified: user.emailVerified || false`. -/
structure FormattedUser where
  id : String
  oid : String
  username : Option String
  name : Option String
  email : Option String
  role : String
  provider : Option String
  emailVerified : Bool
  avatar : Option String
  createdAt : Nat
  updatedAt : Nat
deriving DecidableEq, Repr

/-- Formatting of one user for the list response. -/
def formatUserListItem (u : UserDoc) : FormattedUser :=
  { id := u.oid, oid := u.oid, username := u.username, name := u.name,
    email := u.email, role := jsOrD u.role "USER", provider := u.provider,
    emailVerified := u.emailVerified.getD false, avatar := u.avatar,
    createdAt := u.createdAt, updatedAt := u.updatedAt }

/-- `GET /api/users` (server.js:82-116): sort by `createdAt` (descending when
`order = "desc"`), skip/limit pagination, total from a separate count. -/
def listUsers (s : Store) (page limit : Nat) (order : String) :
    Resp (List FormattedUser × Nat) :=
  ⟨200, ((paginate page limit
            (sortNatKey (order = "desc") (fun u => u.createdAt) s.users)).map
            formatUserListItem,
         s.users.length)⟩

/-- `GET /api/users/:id` (server.js:119-135): `new ObjectId(id)` throws on a
malformed id and the handler's catch maps it to 500 `{error: message}`;
otherwise findOne by `_id`, 404 on miss, 200 with the document. -/
def getUsersById (s : Store) (idParam : String) : Resp (DocResult UserDoc) :=
  match mkObjectId idParam with
  | .error msg => ⟨500, .err msg⟩
  | .ok oid =>
    match s.users.find? (fun u => u.oid = oid) with
    | none => ⟨404, .err "User not found"⟩
    | some u => ⟨200, .doc u⟩

/-- Client body of `POST /api/users` after the handler strips `id`/`_id`. -/
structure UserInput where
  username : Option String
  name : Option String
  email : Option String
  role : Option String
  provider : Option String
  avatar : Option String
  emailVerified : Option Bool
deriving DecidableEq, Repr

/-- `POST /api/users` (server.js:138-172): builds the new document with
timestamps and defaults (`emailVerified || false`, `role || 'USER'`), inserts
it (`newOid` is the store-assigned key), writes the audit record
(`insertOk = auditInsertOk`), responds 201 with the created document. -/
def postUsers (s : Store) (body : UserInput) (h : Headers) (ip : Option String)
    (now : Nat) (newOid : String) (auditInsertOk : Bool) :
    Resp (DocResult UserDoc) × Store :=
  let newUser : UserDoc :=
    { oid := newOid, username := body.username, name := body.name,
      email := body.email, role := some (jsOrD body.role "USER"),
      provider := body.provider,
      emailVerified := some (body.emailVerified.getD false),
      avatar := body.avatar, createdAt := now, updatedAt := now }
  let s1 : Store := { s with users := s.users ++ [newUser] }
  let actor := getUserFromHeaders h
  let s2 := createAuditLog s1 auditInsertOk "create" "users" newOid actor.1 actor.2
    [("username", body.username), ("email", body.email),
     ("role", some (jsOrD body.role "USER"))] ip now
  (⟨201, .doc newUser⟩, s2)

/-- `DELETE /api/users/:id` (server.js:207-228): malformed id throws in
`new ObjectId` and surfaces as 500; otherwise the pre-delete snapshot is
loaded, the document deleted, 404 when nothing was deleted, else the audit
record is written and `{id}` returned. -/
def deleteUsers (s : Store) (idParam : String) (h : Headers) (ip : Option String)
    (now : Nat) (auditInsertOk : Bool) : Resp (DocResult UserDoc) × Store :=
  match mkObjectId idParam with
  | .error msg => (⟨500, .err msg⟩, s)
  | .ok oid =>
    let user? := s.users.find? (fun u => u.oid = oid)
    if s.users.any (fun u => u.oid = oid) then
      let s1 : Store := { s with users := s.users.eraseP (fun u => u.oid = oid) }
      let actor := getUserFromHeaders h
      let payload : AuditData :=
        match user? with
        | some u => [("username", u.username), ("email", u.email)]
        | none => [("deletedUser", none)]
      let s2 := createAuditLog s1 auditInsertOk "delete" "users" idParam
        actor.1 actor.2 payload ip now
      (⟨200, .deletedId idParam⟩, s2)
    else (⟨404, .err "User not found"⟩, s)

-- ==================== CONVERSATIONS ENDPOINTS (server.js:233-308) ====================

/-- A list-item of `GET /api/convos` (server.js:248-258):
`id: convo.conversationId || convo._id.toString()` (JS truthiness), title
defaulted to "Untitled Conversation". -/
structure FormattedConvo where
  id : String
  oid : String
  conversationId : Option String
  title : String
  user : Option String
  endpoint : Option String
  model : Option String
  createdAt : Nat
  updatedAt : Nat
deriving DecidableEq, Repr

/-- Formatting of one conversation for the list response. -/
def formatConvoListItem (c : ConvoDoc) : FormattedConvo :=
  { id := jsOrD c.conversationId c.oid, oid := c.oid,
    conversationId := c.conversationId,
    title := jsOrD c.title "Untitled Conversation",
    user := c.user, endpoint := c.endpoint, model := c.model,
    createdAt := c.createdAt, updatedAt := c.updatedAt }

/-- `GET /api/convos` (server.js:233-265). -/
def listConvos (s : Store) (page limit : Nat) (order : String) :
    Resp (List FormattedConvo × Nat) :=
  ⟨200, ((paginate page limit
            (sortNatKey (order = "desc") (fun c => c.createdAt) s.conversations)).map
            formatConvoListItem,
         s.conversations.length)⟩

/-- `GET /api/convos/:id` (server.js:268-284): findOne on
`{conversationId: id}` only — a document whose `conversationId` field is
absent can never be matched, whatever the path id. -/
def getConvosById (s : Store) (idParam : String) : Resp (DocResult ConvoDoc) :=
  match s.conversations.find? (fun c => c.conversationId = some idParam) with
  | none => ⟨404, .err "Conversation not found"⟩
  | some c => ⟨200, .doc c⟩

-- ==================== AGENTS ENDPOINTS (server.js:633-703) ====================

/-- A list-item of `GET /api/agents` (server.js:647-651): the literal is
`{id: _id.toString(), _id: _id.toString(), ...agent}`, and the spread comes
last, so a document's own `id` field (the application-assigned identifier)
silently overwrites the store key whenever the field is present — presence,
not truthiness, decides. -/
structure FormattedAgent where
  id : String
  oid : String
  doc : AgentDoc
deriving DecidableEq, Repr

/-- Formatting of one agent for the list response. -/
def formatAgentListItem (a : AgentDoc) : FormattedAgent :=
  { id := a.aid.getD a.oid, oid := a.oid, doc := a }

/-- `GET /api/agents` (server.js:633-658). -/
def listAgents (s : Store) (page limit : Nat) (order : String) :
    Resp (List FormattedAgent × Nat) :=
  ⟨200, ((paginate page limit
            (sortNatKey (order = "desc") (fun a => a.createdAt) s.agents)).map
            formatAgentListItem,
         s.agents.length)⟩

/-- `GET /api/agents/:id` (server.js:661-678): findOne on the custom `id`
field, not the store key. -/
def getAgentsById (s : Store) (idParam : String) : Resp (DocResult AgentDoc) :=
  match s.agents.find? (fun a => a.aid = some idParam) with
  | none => ⟨404, .err "Agent not found"⟩
  | some a => ⟨200, .doc a⟩

-- ==================== ROLES ENDPOINTS (server.js:362-490) ====================

/-- Client body of `POST /api/roles` after `id`/`_id` stripping. -/
structure RoleInput where
  name : Option String
  permissions : Option Permissions
deriving DecidableEq, Repr

/-- `POST /api/roles` (server.js:362-415): requires a truthy name, rejects a
duplicate name with 400 before inserting, defaults the permission tree, then
inserts, audits and responds 201. -/
def postRoles (s : Store) (body : RoleInput) (h : Headers) (ip : Option String)
    (now : Nat) (newOid : String) (auditInsertOk : Bool) :
    Resp (DocResult RoleDoc) × Store :=
  if ¬ truthyS body.name then (⟨400, .err "Role name is required"⟩, s)
  else
    let nm := body.name.getD ""
    match s.roles.find? (fun r => r.name = nm) with
    | some _ => (⟨400, .err "Role with this name already exists"⟩, s)
    | none =>
      let newRole : RoleDoc := ⟨newOid, nm, body.permissions.getD defaultPermissions⟩
      let s1 : Store := { s with roles := s.roles ++ [newRole] }
      let actor := getUserFromHeaders h
      let s2 := createAuditLog s1 auditInsertOk "create" "roles" newOid
        actor.1 actor.2 [("name", some nm)] ip now
      (⟨201, .doc newRole⟩, s2)

/-- Client body of `PUT /api/roles/:id` after `id`/`_id` stripping; `$set`
applies exactly the keys present. -/
structure RoleUpdate where
  name : Option String
  permissions : Option Permissions
deriving DecidableEq, Repr

/-- `$set: updateData` applied to a role document: present keys overwrite
(presence, not truthiness). -/
def applyRoleUpdate (r : RoleDoc) (u : RoleUpdate) : RoleDoc :=
  { r with name := u.name.getD r.name,
           permissions := u.permissions.getD r.permissions }

/-- The `findOneAndUpdate` tail of `PUT /api/roles/:id` (server.js:433-453),
shared by both branches of the name pre-check. -/
def putRolesUpdate (s : Store) (idParam : String) (body : RoleUpdate) (h : Headers)
    (ip : Option String) (now : Nat) (auditInsertOk : Bool) :
    Resp (DocResult RoleDoc) × Store :=
  match mkObjectId idParam with
  | .error msg => (⟨500, .err msg⟩, s)
  | .ok oid =>
    match s.roles.find? (fun r => r.oid = oid) with
    | none => (⟨404, .err "Role not found"⟩, s)
    | some r =>
      let s1 : Store :=
        { s with roles := updateFirst (fun x => x.oid = oid)
                            (fun x => applyRoleUpdate x body) s.roles }
      let actor := getUserFromHeaders h
      let changes : AuditData :=
        [("name", body.name),
         ("permissions", body.permissions.map (fun _ => "<object>"))]
      let s2 := createAuditLog s1 auditInsertOk "update" "roles" idParam
        actor.1 actor.2 changes ip now
      (⟨200, .doc (applyRoleUpdate r body)⟩, s2)

/-- `PUT /api/roles/:id` (server.js:418-458): when the patch carries a truthy
name, a conflicting role (same name, different key) aborts with 400 before
any write; a malformed path id throws in `new ObjectId` and surfaces as 500. -/
def putRoles (s : Store) (idParam : String) (body : RoleUpdate) (h : Headers)
    (ip : Option String) (now : Nat) (auditInsertOk : Bool) :
    Resp (DocResult RoleDoc) × Store :=
  if truthyS body.name then
    match mkObjectId idParam with
    | .error msg => (⟨500, .err msg⟩, s)
    | .ok oid =>
      let nm := body.name.getD ""
      match s.roles.find? (fun r => r.name = nm && r.oid ≠ oid) with
      | some _ => (⟨400, .err "Role with this name already exists"⟩, s)
      | none => putRolesUpdate s idParam body h ip now auditInsertOk
  else putRolesUpdate s idParam body h ip now auditInsertOk

/-- The `deleteOne` tail of `DELETE /api/roles/:id` (server.js:474-485),
reached only when the referential guard passes. -/
def deleteRolesProceed (s : Store) (idParam oid : String) (role? : Option RoleDoc)
    (h : Headers) (ip : Option String) (now : Nat) (auditInsertOk : Bool) :
    Resp (DocResult RoleDoc) × Store :=
  if s.roles.any (fun r => r.oid = oid) then
    let s1 : Store := { s with roles := s.roles.eraseP (fun r => r.oid = oid) }
    let actor := getUserFromHeaders h
    let payload : AuditData :=
      match role? with
      | some r => [("name", some r.name)]
      | none => [("deletedRole", none)]
    let s2 := createAuditLog s1 auditInsertOk "delete" "roles" idParam
      actor.1 actor.2 payload ip now
    (⟨200, .deletedId idParam⟩, s2)
  else (⟨404, .err "Role not found"⟩, s)

/-- `DELETE /api/roles/:id` (server.js:461-490): loads the role; when it
exists and at least one user's `role` field equals its name, refuses with
400 and a count-bearing message, leaving the store untouched; otherwise
deletes (404 when nothing was deleted). -/
def deleteRoles (s : Store) (idParam : String) (h : Headers) (ip : Option String)
    (now : Nat) (auditInsertOk : Bool) : Resp (DocResult RoleDoc) × Store :=
  match mkObjectId idParam with
  | .error msg => (⟨500, .err msg⟩, s)
  | .ok oid =>
    let role? := s.roles.find? (fun r => r.oid = oid)
    match role? with
    | some role =>
      let usersWithRole := (s.users.filter (fun u => u.role = some role.name)).length
      if usersWithRole > 0 then
        (⟨400, .err ("Cannot delete role. " ++ toString usersWithRole ++
                     " user(s) are assigned this role.")⟩, s)
      else deleteRolesProceed s idParam oid role? h ip now auditInsertOk
    | none => deleteRolesProceed s idParam oid none h ip now auditInsertOk

-- ==================== COST STATISTICS (server.js:1326-1416) ====================

/-- Accumulator pass for `dedupFirst`. -/
def dedupFirstAux (seen : List String) : List String → List String
  | [] => []
  | x :: xs =>
    if seen.contains x then dedupFirstAux seen xs
    else x :: dedupFirstAux (x :: seen) xs

/-- First-occurrence deduplication of the grouping keys (`$group` by
`$user`; the relative order of groups before the `$sort` stage is
unspecified by the store, fixed here as first appearance). -/
def dedupFirst (l : List String) : List String := dedupFirstAux [] l

/-- The `$match` stage: transactions whose `createdAt` lies in the closed
current-month window `[startM, endM]` (the handler computes `startM` as the
first millisecond of the month and `endM` as 23:59:59.999 of its last day). -/
def monthFilter (startM endM : Nat) (ts : List TxnDoc) : List TxnDoc :=
  ts.filter (fun t => decide (startM ≤ t.createdAt) && decide (t.createdAt ≤ endM))

/-- One group of the `$group` stage: per-user sums of `$abs` of the signed
`rawAmount` and `tokenValue`, plus the transaction count. -/
structure UserAgg where
  user : String
  totalTokens : Nat
  totalValue : Nat
  transactionCount : Nat
deriving DecidableEq, Repr

/-- The group produced for one user key over a transaction list. -/
def userAggFor (ts : List TxnDoc) (u : String) : UserAgg :=
  let uts := ts.filter (fun t => t.user = u)
  ⟨u, (uts.map (fun t => t.rawAmount.natAbs)).sum,
      (uts.map (fun t => t.tokenValue.natAbs)).sum, uts.length⟩

/-- The `$group: {_id: '$user', ...}` stage. -/
def groupByUser (ts : List TxnDoc) : List UserAgg :=
  (dedupFirst (ts.map (fun t => t.user))).map (userAggFor ts)

/-- The `$sort: {totalTokens: -1}` comparison: `a` may precede `b` when its
token total is at least `b`'s. -/
def aggSortLe (a b : UserAgg) : Bool := decide (b.totalTokens ≤ a.totalTokens)

/-- The `$match / $group / $sort / $limit: 10` pipeline of the monthly
top-consumer aggregate (server.js:1334-1357). -/
def monthlyTopConsumersAgg (startM endM : Nat) (ts : List TxnDoc) : List UserAgg :=
  (sortBy aggSortLe (groupByUser (monthFilter startM endM ts))).take 10

/-- `totalTokens / 1000 * 0.03` (server.js:1370, 1407), the fixed per-1000-
token rate; JS float arithmetic is modelled as exact rational arithmetic
(`0.03 = 3/100`), and the `toFixed` decimal rendering is not modelled. -/
def estimatedCost (totalTokens : Nat) : ℚ := (totalTokens : ℚ) / 1000 * (3 / 100)

/-- One joined row of `topConsumers` (server.js:1360-1373). -/
structure TopConsumer where
  userId : String
  username : String
  email : String
  totalTokens : Nat
  totalValue : Nat
  transactionCount : Nat
  cost : ℚ
deriving DecidableEq, Repr

/-- The per-group user join: `user?.username || user?.email || 'Unknown
User'` and `user?.email || 'N/A'` with JS optional chaining and truthiness. -/
def mkTopConsumer (s : Store) (st : UserAgg) : TopConsumer :=
  let user? := s.users.find? (fun u => u.oid = st.user)
  { userId := st.user
    username := jsOrD (jsOr (user?.bind (fun u => u.username))
                            (user?.bind (fun u => u.email))) "Unknown User"
    email := jsOrD (user?.bind (fun u => u.email)) "N/A"
    totalTokens := st.totalTokens
    totalValue := st.totalValue
    transactionCount := st.transactionCount
    cost := estimatedCost st.totalTokens }

/-- The second aggregate (server.js:1376-1395): the same absolute sums with
`_id: null`, i.e. over all users of the month window; an empty result
defaults to all-zero, which the direct sums already give. -/
def overallMonthAgg (startM endM : Nat) (ts : List TxnDoc) : UserAgg :=
  let fts := monthFilter startM endM ts
  ⟨"", (fts.map (fun t => t.rawAmount.natAbs)).sum,
       (fts.map (fun t => t.tokenValue.natAbs)).sum, fts.length⟩

/-- `GET /api/cost-stats` response content: joined top-10 list, overall
month totals and the overall estimated cost. -/
def costStats (s : Store) (startM endM : Nat) : List TopConsumer × UserAgg × ℚ :=
  let top := (monthlyTopConsumersAgg startM endM s.transactions).map (mkTopConsumer s)
  let overall := overallMonthAgg startM endM s.transactions
  (top, overall, estimatedCost overall.totalTokens)

-- ==================== KUBECTL COMMAND EXECUTION (k8s.service.js:315-631) ====================

/-- A raw Kubernetes deployment object, with the fields the service reads. -/
structure DeploymentRaw where
  name : String
  nsp : String
  replicas : Option Nat
  readyReplicas : Option Nat
  availableReplicas : Option Nat
  updatedReplicas : Option Nat
  unavailableReplicas : Option Nat
  creationTimestamp : Nat
  strategyType : String
  selectorMatchLabels : List (String × String)
  labels : Option (List (String × String))
  containers : List (String × String)
deriving DecidableEq, Repr

/-- A raw Kubernetes service object, with the fields the service reads. -/
structure ServiceRaw where
  name : String
  svcType : String
  clusterIP : Option String
  ports : List (Nat × String)
deriving DecidableEq, Repr

/-- The orchestration control plane as seen by the service: each operation
either answers or fails with an error message. -/
structure Cluster where
  listPodsNs : String → Except String (List PodRaw)
  listDeploymentsNs : String → Except String (List DeploymentRaw)
  listServicesNs : String → Except String (List ServiceRaw)
  readPod : String → String → Except String PodRaw
  readDeployment : String → String → Except String DeploymentRaw
  podLogs : String → String → Except String String
  patchDeployment : String → String → Nat → Except String DeploymentRaw

/-- JS `String.prototype.padEnd` with spaces. -/
def padEnd (s : String) (n : Nat) : String :=
  s ++ String.mk (List.replicate (n - s.length) ' ')

/-- Stand-in for `JSON.stringify(pod, null, 2)` in `handleGetCommand`; the
rendered text is never load-bearing for a claim, only the success/error
structure around it, so the rendering is abbreviated to a tagged marker. -/
def jsonStringifyPod (p : PodRaw) : String := "<json pod " ++ p.name ++ ">"

/-- Stand-in for `JSON.stringify(deployment, null, 2)` (see
`jsonStringifyPod`). -/
def jsonStringifyDeployment (d : DeploymentRaw) : String :=
  "<json deployment " ++ d.name ++ ">"

/-- Stand-in for `JSON.stringify(service, null, 2)` (see
`jsonStringifyPod`). -/
def jsonStringifyService (sv : ServiceRaw) : String :=
  "<json service " ++ sv.name ++ ">"

/-- Stand-in for `JSON.stringify(labels, null, 2)` in the describe
renderings (see `jsonStringifyPod`). -/
def jsonStringifyLabels (ls : List (String × String)) : String :=
  "<json labels " ++ toString ls.length ++ ">"

/-- One row of `formatPodsTable` (k8s.service.js:501-512). -/
def podsTableRow (now : Nat) (pod : PodRaw) : String :=
  let cs := pod.containerStatuses.getD []
  let ready := toString (cs.filter (fun c => c.ready)).length ++ "/" ++ toString cs.length
  let restarts := (cs.map (fun c => c.restartCount.getD 0)).sum
  padEnd pod.name 50 ++ padEnd ready 10 ++ padEnd pod.phase 15 ++
    padEnd (toString restarts) 10 ++ calculateAge now pod.creationTimestamp

/-- `formatPodsTable` (k8s.service.js:499-515). -/
def formatPodsTable (now : Nat) (pods : List PodRaw) : String :=
  let header := padEnd "NAME" 50 ++ padEnd "READY" 10 ++ padEnd "STATUS" 15 ++
    padEnd "RESTARTS" 10 ++ "AGE"
  header ++ "\n" ++ String.intercalate "\n" (pods.map (podsTableRow now))

/-- One row of `formatDeploymentsTable` (k8s.service.js:523-532). -/
def deploymentsTableRow (now : Nat) (d : DeploymentRaw) : String :=
  let ready := toString (d.readyReplicas.getD 0) ++ "/" ++ toString (d.replicas.getD 0)
  padEnd d.name 40 ++ padEnd ready 10 ++
    padEnd (toString (d.updatedReplicas.getD 0)) 12 ++
    padEnd (toString (d.availableReplicas.getD 0)) 12 ++
    calculateAge now d.creationTimestamp

/-- `formatDeploymentsTable` (k8s.service.js:521-535). -/
def formatDeploymentsTable (now : Nat) (ds : List DeploymentRaw) : String :=
  let header := padEnd "NAME" 40 ++ padEnd "READY" 10 ++ padEnd "UP-TO-DATE" 12 ++
    padEnd "AVAILABLE" 12 ++ "AGE"
  header ++ "\n" ++ String.intercalate "\n" (ds.map (deploymentsTableRow now))

/-- `formatServicesTable` (k8s.service.js:541-553). -/
def formatServicesTable (svs : List ServiceRaw) : String :=
  let header := padEnd "NAME" 40 ++ padEnd "TYPE" 20 ++ padEnd "CLUSTER-IP" 20 ++ "PORT(S)"
  let rows := svs.map (fun sv =>
    let ports := String.intercalate ","
      (sv.ports.map (fun p => toString p.1 ++ "/" ++ p.2))
    padEnd sv.name 40 ++ padEnd sv.svcType 20 ++
      padEnd (jsOrD sv.clusterIP "None") 20 ++ ports)
  header ++ "\n" ++ String.intercalate "\n" rows

/-- `formatPodDescription` (k8s.service.js:559-569). -/
def formatPodDescription (pod : PodRaw) : String :=
  "Name:         " ++ pod.name ++ "\n" ++
  "Namespace:    " ++ pod.nsp ++ "\n" ++
  "Status:       " ++ pod.phase ++ "\n" ++
  "IP:           " ++ jsOrD pod.podIP "N/A" ++ "\n" ++
  "Node:         " ++ jsOrD pod.nodeName "N/A" ++ "\n" ++
  "Start Time:   " ++ toString pod.creationTimestamp ++ "\n" ++
  "Labels:       " ++ jsonStringifyLabels (pod.labels.getD []) ++ "\n" ++
  "Containers:   " ++ String.intercalate ", " pod.specContainers ++ "\n"

/-- `formatDeploymentDescription` (k8s.service.js:575-584). -/
def formatDeploymentDescription (d : DeploymentRaw) : String :=
  "Name:         " ++ d.name ++ "\n" ++
  "Namespace:    " ++ d.nsp ++ "\n" ++
  "Replicas:     " ++ toString (d.replicas.getD 0) ++ " desired | " ++
    toString (d.updatedReplicas.getD 0) ++ " updated | " ++
    toString (d.availableReplicas.getD 0) ++ " available\n" ++
  "Strategy:     " ++ d.strategyType ++ "\n" ++
  "Selector:     " ++ jsonStringifyLabels d.selectorMatchLabels ++ "\n" ++
  "Labels:       " ++ jsonStringifyLabels (d.labels.getD []) ++ "\n" ++
  "Containers:   " ++ String.intercalate ", "
    (d.containers.map (fun c => c.1 ++ " (" ++ c.2 ++ ")")) ++ "\n"

/-- `handleGetCommand` (k8s.service.js:381-432). Returns the try-block's
outcome paired with the list of control-plane operations invoked. An
unrecognised resource type throws before any control-plane call. -/
def handleGetCommand (cl : Cluster) (now : Nat)
    (resourceType resourceName : Option String) (ns : String) :
    Except String String × List String :=
  if resourceType = some "pods" then
    match cl.listPodsNs ns with
    | .error e => (.error e, ["listNamespacedPod"])
    | .ok pods =>
      if truthyS resourceName then
        match pods.find? (fun p => some p.name = resourceName) with
        | none => (.error ("Pod \"" ++ tmpl resourceName ++ "\" not found"),
                   ["listNamespacedPod"])
        | some pod => (.ok (jsonStringifyPod pod), ["listNamespacedPod"])
      else (.ok (formatPodsTable now pods), ["listNamespacedPod"])
  else if resourceType = some "deployments" then
    match cl.listDeploymentsNs ns with
    | .error e => (.error e, ["listNamespacedDeployment"])
    | .ok ds =>
      if truthyS resourceName then
        match ds.find? (fun d => some d.name = resourceName) with
        | none => (.error ("Deployment \"" ++ tmpl resourceName ++ "\" not found"),
                   ["listNamespacedDeployment"])
        | some d => (.ok (jsonStringifyDeployment d), ["listNamespacedDeployment"])
      else (.ok (formatDeploymentsTable now ds), ["listNamespacedDeployment"])
  else if resourceType = some "services" ∨ resourceType = some "svc" then
    match cl.listServicesNs ns with
    | .error e => (.error e, ["listNamespacedService"])
    | .ok svs =>
      if truthyS resourceName then
        match svs.find? (fun sv => some sv.name = resourceName) with
        | none => (.error ("Service \"" ++ tmpl resourceName ++ "\" not found"),
                   ["listNamespacedService"])
        | some sv => (.ok (jsonStringifyService sv), ["listNamespacedService"])
      else (.ok (formatServicesTable svs), ["listNamespacedService"])
  else
    (.error ("Resource type '" ++ tmpl resourceType ++
             "' not supported. Try: pods, deployments, services"), [])

/-- `handleDescribeCommand` (k8s.service.js:438-460). -/
def handleDescribeCommand (cl : Cluster)
    (resourceType resourceName : Option String) (ns : String) :
    Except String String × List String :=
  if ¬ truthyS resourceName then
    (.error "Resource name is required for describe command", [])
  else if resourceType = some "pod" then
    match cl.readPod ns (resourceName.getD "") with
    | .error e => (.error e, ["readNamespacedPod"])
    | .ok pod => (.ok (formatPodDescription pod), ["readNamespacedPod"])
  else if resourceType = some "deployment" then
    match cl.readDeployment ns (resourceName.getD "") with
    | .error e => (.error e, ["readNamespacedDeployment"])
    | .ok d => (.ok (formatDeploymentDescription d), ["readNamespacedDeployment"])
  else
    (.error ("Resource type '" ++ tmpl resourceType ++
             "' not supported for describe. Try: pod, deployment"), [])

/-- `handleLogsCommand` (k8s.service.js:466-477); the pod name is the second
command token. -/
def handleLogsCommand (cl : Cluster) (podName : Option String) (ns : String) :
    Except String String × List String :=
  if ¬ truthyS podName then
    (.error "Pod name is required for logs command", [])
  else
    match cl.podLogs ns (podName.getD "") with
    | .error e => (.error e, ["readNamespacedPodLog"])
    | .ok logs => (.ok logs, ["readNamespacedPodLog"])

/-- `handleExplainCommand` (k8s.service.js:483-493): a fixed dictionary with
a fallback string; never throws, never calls the control plane. -/
def handleExplainCommand (resourceType : Option String) : Except String String :=
  let explanation? : Option String :=
    match resourceType with
    | some "pod" => some ("Pod is the smallest deployable unit in Kubernetes. " ++
        "A Pod represents a single instance of a running process in your cluster.")
    | some "deployment" => some ("Deployment provides declarative updates for Pods " ++
        "and ReplicaSets. It manages the deployment and scaling of a set of Pods.")
    | some "service" => some ("Service is an abstraction which defines a logical " ++
        "set of Pods and a policy by which to access them.")
    | some "namespace" => some ("Namespace provides a mechanism for isolating " ++
        "groups of resources within a single cluster.")
    | _ => none
  .ok (explanation?.getD ("No explanation available for '" ++ tmpl resourceType ++
        "'. Try: pod, deployment, service, namespace"))

/-- `executeK8sCommand` (k8s.service.js:358-375): dispatch over the verb;
the default branch throws "Command '<verb>' not implemented" — this is the
path an allowed-but-unimplemented verb such as `top` takes. -/
def executeK8sCommand (cl : Cluster) (now : Nat) (command : String)
    (resourceType resourceName : Option String) (ns : String) :
    Except String String × List String :=
  match command with
  | "get" => handleGetCommand cl now resourceType resourceName ns
  | "describe" => handleDescribeCommand cl resourceType resourceName ns
  | "logs" => handleLogsCommand cl resourceType ns
  | "explain" => (handleExplainCommand resourceType, [])
  | _ => (.error ("Command '" ++ command ++ "' not implemented"), [])

/-- Result value of a JavaScript async function: a resolved value or a
rejection carrying the thrown error's message. -/
inductive JsOutcome (α : Type)
  | ok (v : α)
  | thrown (msg : String)
deriving DecidableEq, Repr

/-- The structured result object `executeKubectlCommand` builds on the
success path (k8s.service.js:333-340). -/
structure KubectlResult where
  command : String
  nsp : String
  output : String
  error : String
  exitCode : Nat
  timestamp : Nat
deriving DecidableEq, Repr

/-- The options argument of `executeKubectlCommand`. -/
structure ExecOptions where
  nsp : Option String
  allowedCommands : Option (List String)
deriving DecidableEq, Repr

/-- Whitespace tokenizer: splits a character list into its maximal
whitespace-free runs. -/
def tokenizeWs (acc : List Char) : List Char → List (List Char)
  | [] => if acc = [] then [] else [acc.reverse]
  | c :: cs =>
    if c.isWhitespace then
      if acc = [] then tokenizeWs [] cs else acc.reverse :: tokenizeWs [] cs
    else tokenizeWs (c :: acc) cs

/-- `command.trim().split(/\s+/)`: leading/trailing whitespace removed, the
remainder split on whitespace runs; on a blank command line JS yields
`['']`. -/
def splitWs (s : String) : List String :=
  let trimmed :=
    ((s.data.dropWhile Char.isWhitespace).reverse.dropWhile Char.isWhitespace).reverse
  if trimmed = [] then [""]
  else (tokenizeWs [] trimmed).map String.mk

/-- The identifiers in scope inside the `catch` block of
`executeKubectlCommand` (k8s.service.js:341-351): the two function
parameters and the catch parameter. The destructuring
`const { namespace = 'default', allowedCommands = [...] } = options;` on
line 317 is a `const` declaration inside the `try` *block*, and `const`
bindings are block-scoped, so neither `namespace` nor `allowedCommands` is
visible in the catch block, and no enclosing scope declares `namespace`. -/
def kubectlCatchScope : List String := ["command", "options", "error"]

/-- The catch block of `executeKubectlCommand` (k8s.service.js:341-351). Its
body builds the object literal `{command, namespace: namespace, output: '',
error: error.message, exitCode: 1, timestamp}`; evaluating the identifier
`namespace` there resolves against `kubectlCatchScope` (and the module
scope, which has no such binding) and so raises
`ReferenceError: namespace is not defined`, which the async function
surfaces as a rejection in place of the intended structured result. -/
def executeKubectlCatch (_command _errMsg : String) : JsOutcome KubectlResult :=
  .thrown "namespace is not defined"

/-- `executeKubectlCommand` (k8s.service.js:315-352): applies option
defaults, tokenises the command line, rejects a verb outside the allow
list by throwing inside the try block, otherwise dispatches through
`executeK8sCommand`; every error caught by the catch block ends in
`executeKubectlCatch`. The second component is the list of control-plane
operations invoked. -/
def executeKubectlCommand (cl : Cluster) (now : Nat) (command : String)
    (opts : ExecOptions) : JsOutcome KubectlResult × List String :=
  let ns := opts.nsp.getD "default"
  let allowed := opts.allowedCommands.getD ["get", "describe", "logs", "top", "explain"]
  let parts := splitWs command
  let mainCommand := parts.getD 0 ""
  let resourceType := parts.get? 1
  let resourceName := parts.get? 2
  if ¬ allowed.contains mainCommand then
    (executeKubectlCatch command
      ("Command '" ++ mainCommand ++ "' is not allowed. Allowed commands: " ++
       String.intercalate ", " allowed), [])
  else
    match executeK8sCommand cl now mainCommand resourceType resourceName ns with
    | (.ok output, calls) => (.ok ⟨command, ns, output, "", 0, now⟩, calls)
    | (.error e, calls) => (executeKubectlCatch command e, calls)

/-- `formatDeploymentInfo` output (k8s.service.js:590-628). -/
structure DeploymentInfo where
  id : String
  name : String
  nsp : String
  status : String
  replicas : String
  availableReplicas : Nat
  unavailableReplicas : Nat
  updatedReplicas : Nat
  desiredReplicas : Nat
  age : String
  createdAt : Nat
  images : List String
  containers : List (String × String)
  labels : List (String × String)
  selector : List (String × String)
deriving DecidableEq, Repr

/-- `formatDeploymentInfo` (k8s.service.js:590-628). The status test
`status.availableReplicas === spec.replicas` is strict JS equality on two
possibly-undefined numbers (`undefined === undefined` holds), modelled by
equality of the two `Option Nat` values; `availableReplicas > 0` is false
when the field is undefined. -/
def formatDeploymentInfo (now : Nat) (d : DeploymentRaw) : DeploymentInfo :=
  let deploymentStatus :=
    if d.availableReplicas = d.replicas then "Ready"
    else if d.availableReplicas.getD 0 > 0 then "Partial"
    else "Not Ready"
  { id := d.nsp ++ "::" ++ d.name
    name := d.name
    nsp := d.nsp
    status := deploymentStatus
    replicas := toString (d.readyReplicas.getD 0) ++ "/" ++ toString (d.replicas.getD 0)
    availableReplicas := d.availableReplicas.getD 0
    unavailableReplicas := d.unavailableReplicas.getD 0
    updatedReplicas := d.updatedReplicas.getD 0
    desiredReplicas := d.replicas.getD 0
    age := calculateAge now d.creationTimestamp
    createdAt := d.creationTimestamp
    images := d.containers.map (fun c => c.2)
    containers := d.containers
    labels := d.labels.getD []
    selector := d.selectorMatchLabels }

/-- Body of the `POST /api/kubectl/execute` response. -/
inductive KubectlHttpBody
  | result (r : KubectlResult)
  | err (msg : String)
deriving DecidableEq, Repr

/-- `POST /api/kubectl/execute` (server.js:1572-1600): requires a truthy
command, forwards to `executeKubectlCommand` with the fixed allow list; a
rejection of that call lands in the route's catch and becomes a 500
`{error: message}` with no audit record; a resolved result is audited and
returned as-is with status 200. -/
def postKubectlExecute (s : Store) (cl : Cluster) (command? nsBody : Option String)
    (h : Headers) (ip : Option String) (now : Nat) (auditInsertOk : Bool) :
    Resp KubectlHttpBody × Store :=
  if ¬ truthyS command? then (⟨400, .err "Command is required"⟩, s)
  else
    let command := command?.getD ""
    let ns := nsBody.getD "default"
    match executeKubectlCommand cl now command
        ⟨some ns, some ["get", "describe", "logs", "top", "explain"]⟩ with
    | (.thrown msg, _) => (⟨500, .err msg⟩, s)
    | (.ok result, _) =>
      let actor := getUserFromHeaders h
      let s2 := createAuditLog s auditInsertOk "execute" "kubectl-commands"
        (ns ++ "::" ++ command) actor.1 actor.2
        [("command", some command), ("namespace", some ns),
         ("exitCode", some (toString result.exitCode))] ip now
      (⟨200, .result result⟩, s2)

-- ============ REMAINING MUTATING ENDPOINTS MODELLED FOR THE AUDIT CLAIM ============

/-- `DELETE /api/convos/:id` (server.js:287-308): snapshot, delete by
`conversationId`, 404 when nothing was deleted, else audit and `{id}`. -/
def deleteConvos (s : Store) (idParam : String) (h : Headers) (ip : Option String)
    (now : Nat) (auditInsertOk : Bool) : Resp (DocResult ConvoDoc) × Store :=
  let convo? := s.conversations.find? (fun c => c.conversationId = some idParam)
  if s.conversations.any (fun c => c.conversationId = some idParam) then
    let s1 : Store :=
      { s with conversations := s.conversations.eraseP (fun c => c.conversationId = some idParam) }
    let actor := getUserFromHeaders h
    let payload : AuditData :=
      match convo? with
      | some c => [("title", c.title), ("user", c.user)]
      | none => [("deletedConversation", none)]
    let s2 := createAuditLog s1 auditInsertOk "delete" "conversations" idParam
      actor.1 actor.2 payload ip now
    (⟨200, .deletedId idParam⟩, s2)
  else (⟨404, .err "Conversation not found"⟩, s)

/-- `restartDeployment` of the service (k8s.service.js:270-307): a
strategic-merge patch writing the restart annotation with the current
timestamp, then `formatDeploymentInfo` of the response; a control-plane
failure is rethrown. -/
def restartDeployment (cl : Cluster) (now : Nat) (ns deploymentName : String) :
    Except String DeploymentInfo :=
  match cl.patchDeployment deploymentName ns now with
  | .error e => .error e
  | .ok d => .ok (formatDeploymentInfo now d)

/-- Body of the deployment-restart response. -/
inductive RestartBody
  | ok (message : String) (deployment : DeploymentInfo)
  | err (msg : String)
deriving DecidableEq, Repr

/-- `POST /api/deployments/:id/restart` (server.js:1534-1567): splits the
composite id on `::`, rejects a malformed id with 400, restarts, audits with
the formatted deployment's id, responds with the success message. -/
def postDeploymentsRestart (s : Store) (cl : Cluster) (idParam : String)
    (h : Headers) (ip : Option String) (now : Nat) (auditInsertOk : Bool) :
    Resp RestartBody × Store :=
  let parts := idParam.splitOn "::"
  if parts.length ≠ 2 then
    (⟨400, .err "Invalid deployment ID format. Expected: namespace::deploymentname"⟩, s)
  else
    let ns := parts.getD 0 ""
    let deploymentName := parts.getD 1 ""
    if ns = "" ∨ deploymentName = "" then
      (⟨400, .err "Invalid deployment ID format. Expected: namespace::deploymentname"⟩, s)
    else
      match restartDeployment cl now ns deploymentName with
      | .error e => (⟨500, .err e⟩, s)
      | .ok deployment =>
        let actor := getUserFromHeaders h
        let s2 := createAuditLog s auditInsertOk "restart" "deployments"
          deployment.id actor.1 actor.2
          [("namespace", some ns), ("deploymentName", some deploymentName)] ip now
        (⟨200, .ok ("Deployment " ++ deploymentName ++ " in namespace " ++ ns ++
                    " has been restarted") deployment⟩, s2)

-- ==================== GENERAL LEMMAS ====================

/-- `find?` on a list returns the designated element when it satisfies the
predicate and is the only member doing so. -/
theorem find_eq_of_unique {α : Type} (l : List α) (p : α → Bool) (a : α)
    (ha : a ∈ l) (hp : p a = true) (huniq : ∀ b ∈ l, p b = true → b = a) :
    l.find? p = some a := by
  induction l with
  | nil => cases ha
  | cons x xs ih =>
    by_cases hx : p x = true
    · have hxa : x = a := huniq x (List.mem_cons_self x xs) hx
      subst hxa
      exact List.find?_cons_of_pos xs hx
    · have ha' : a ∈ xs := by
        rcases List.mem_cons.mp ha with rfl | h
        · exact absurd hp hx
        · exact h
      rw [List.find?_cons_of_neg xs hx]
      exact ih ha' (fun b hb hpb => huniq b (List.mem_cons_of_mem x hb) hpb)

/-- Membership through `insertSorted`. -/
theorem mem_insertSorted {α : Type} (le : α → α → Bool) (x z : α) (l : List α) :
    z ∈ insertSorted le x l ↔ z = x ∨ z ∈ l := by
  induction l with
  | nil => simp [insertSorted]
  | cons y ys ih =>
    by_cases h : le y x = true
    · simp only [insertSorted]
      rw [if_pos h]
      simp only [List.mem_cons, ih]
      tauto
    · simp only [insertSorted]
      rw [if_neg h]
      simp only [List.mem_cons]

/-- Membership through `sortBy`. -/
theorem mem_sortBy {α : Type} (le : α → α → Bool) (z : α) (l : List α) :
    z ∈ sortBy le l ↔ z ∈ l := by
  induction l with
  | nil => simp [sortBy]
  | cons x xs ih =>
    simp only [sortBy, mem_insertSorted, List.mem_cons, ih]

/-- Membership through `paginate`. -/
theorem mem_paginate {α : Type} (page limit : Nat) (l : List α) (z : α)
    (h : z ∈ paginate page limit l) : z ∈ l :=
  List.mem_of_mem_drop (List.mem_of_mem_take h)

/-- `insertSorted` preserves sortedness of a list ordered by a total
transitive boolean relation. -/
theorem pairwise_insertSorted {α : Type} (le : α → α → Bool)
    (htot : ∀ a b, le a b = true ∨ le b a = true)
    (htrans : ∀ a b c, le a b = true → le b c = true → le a c = true)
    (x : α) (l : List α) (h : l.Pairwise (fun a b => le a b = true)) :
    (insertSorted le x l).Pairwise (fun a b => le a b = true) := by
  induction l with
  | nil => simp [insertSorted]
  | cons y ys ih =>
    rcases List.pairwise_cons.mp h with ⟨hy, hys⟩
    by_cases hyx : le y x = true
    · simp only [insertSorted]
      rw [if_pos hyx]
      refine List.pairwise_cons.mpr ⟨fun z hz => ?_, ih hys⟩
      rcases (mem_insertSorted le x z ys).mp hz with rfl | hmem
      · exact hyx
      · exact hy z hmem
    · have hxy : le x y = true := (htot x y).resolve_right (fun hc => hyx hc)
      simp only [insertSorted]
      rw [if_neg hyx]
      refine List.pairwise_cons.mpr ⟨fun z hz => ?_, List.pairwise_cons.mpr ⟨hy, hys⟩⟩
      rcases List.mem_cons.mp hz with rfl | hmem
      · exact hxy
      · exact htrans x y z hxy (hy z hmem)

/-- `sortBy` with a total transitive boolean relation produces a pairwise-
ordered list. -/
theorem pairwise_sortBy {α : Type} (le : α → α → Bool)
    (htot : ∀ a b, le a b = true ∨ le b a = true)
    (htrans : ∀ a b c, le a b = true → le b c = true → le a c = true)
    (l : List α) : (sortBy le l).Pairwise (fun a b => le a b = true) := by
  induction l with
  | nil => simp [sortBy]
  | cons x xs ih => exact pairwise_insertSorted le htot htrans x (sortBy le xs) ih

/-- A list with an element failing the filter predicate strictly shrinks
under `filter`. -/
theorem length_filter_lt_of_exists_not {α : Type} (p : α → Bool) (l : List α)
    (h : ∃ a ∈ l, p a = false) : (l.filter p).length < l.length := by
  induction l with
  | nil => simp at h
  | cons x xs ih =>
    rcases h with ⟨a, ha, hpa⟩
    rcases List.mem_cons.mp ha with rfl | hmem
    · simp only [List.filter_cons, hpa, Bool.false_eq_true, if_false, List.length_cons]
      exact Nat.lt_succ_of_le (List.length_filter_le p xs)
    · cases hx : p x
      · simp only [List.filter_cons, hx, Bool.false_eq_true, if_false, List.length_cons]
        exact Nat.lt_succ_of_le (List.length_filter_le p xs)
      · simp only [List.filter_cons, hx, if_pos rfl, List.length_cons]
        exact Nat.succ_lt_succ (ih ⟨a, hmem, hpa⟩)

/-- `jsOr` falls through on a falsy first operand. -/
theorem jsOr_neg (a b : Option String) (h : truthyS a = false) : jsOr a b = b := by
  simp [jsOr, h]

/-- `jsOrD` falls through on a falsy first operand. -/
theorem jsOrD_neg (a : Option String) (b : String) (h : truthyS a = false) :
    jsOrD a b = b := by
  cases a with
  | none => rfl
  | some s =>
    have hs : s = "" := by
      by_contra hne
      simp [truthyS, hne] at h
    subst hs
    rfl

/-- `jsOrD` returns a truthy first operand's value. -/
theorem jsOrD_pos (s : String) (b : String) (h : s ≠ "") :
    jsOrD (some s) b = s := by
  simp [jsOrD, h]

/-- Headers with all four identity headers absent. -/
def noHeaders : Headers := ⟨none, none, none, none⟩

/-- The empty document store. -/
def emptyStore : Store := ⟨[], [], [], [], [], []⟩

-- ==================== CLAIM THEOREMS ====================

/-- C10 (counterexample): a request whose only identity header is
`x-forwarded-email: unknown` yields actor email and actor name both equal to
the literal string "unknown" although an email header is present — so
"both actor fields equal 'unknown' only when both email headers are absent"
is false at this input. -/
theorem actorUnknown_counterexample :
    getUserFromHeaders ⟨some "unknown", none, none, none⟩ = ("unknown", "unknown") ∧
    (⟨some "unknown", none, none, none⟩ : Headers).xForwardedEmail ≠ none := by
  exact ⟨rfl, by decide⟩

/-- C10 (amended): whenever neither display-name header is truthy, the
extracted actor name equals the actor email (in particular when an email
header is present and no name header is); and when all four identity headers
are absent both actor fields are the literal "unknown". The converse of the
latter fails (see the counterexample): an email header carrying the literal
"unknown", or empty-string email headers, also produce "unknown" fields. -/
theorem actorExtraction_amended (h : Headers) :
    (truthyS h.xForwardedUser = false → truthyS h.xAuthRequestUser = false →
      (getUserFromHeaders h).2 = (getUserFromHeaders h).1) ∧
    (h.xForwardedEmail = none → h.xAuthRequestEmail = none →
      h.xForwardedUser = none → h.xAuthRequestUser = none →
      getUserFromHeaders h = ("unknown", "unknown")) := by
  constructor
  · intro h1 h2
    simp only [getUserFromHeaders]
    rw [jsOr_neg _ _ h1, jsOrD_neg _ _ h2]
  · intro he1 he2 hu1 hu2
    cases h
    simp only at he1 he2 hu1 hu2
    subst he1; subst he2; subst hu1; subst hu2
    rfl

/-- C10 (witness for the amended theorem): with only
`x-forwarded-email: admin@example.com` set the actor name equals the actor
email, and with no identity headers both fields are "unknown". -/
theorem actorExtraction_amended_witness :
    ((getUserFromHeaders ⟨some "admin@example.com", none, none, none⟩).2 =
      (getUserFromHeaders ⟨some "admin@example.com", none, none, none⟩).1) ∧
    getUserFromHeaders noHeaders = ("unknown", "unknown") :=
  ⟨(actorExtraction_amended ⟨some "admin@example.com", none, none, none⟩).1 rfl rfl,
   (actorExtraction_amended noHeaders).2 rfl rfl rfl rfl⟩

/-- C7: pod status derivation of `formatPodInfo`. With phase "Running" the
derived status is "Running" exactly when every container status reports
ready (and "Not Ready" when some does not), and `statusReason` is the empty
string; with any other phase the status echoes the phase and `statusReason`
is the first condition with status "False" contributing `reason || message`
(JS `||`: an absent or empty reason falls through to the message), otherwise
the empty string. -/
theorem podStatusDerivation (now : Nat) (pod : PodRaw) :
    (pod.phase = "Running" →
      ((formatPodInfo now pod).status = "Running" ↔
        ∀ c ∈ pod.containerStatuses.getD [], c.ready = true) ∧
      ((∃ c ∈ pod.containerStatuses.getD [], c.ready = false) →
        (formatPodInfo now pod).status = "Not Ready") ∧
      (formatPodInfo now pod).statusReason = some "") ∧
    (pod.phase ≠ "Running" →
      (formatPodInfo now pod).status = pod.phase ∧
      (formatPodInfo now pod).statusReason =
        (match (pod.conditions.getD []).find? (fun c => c.condStatus = "False") with
         | some c => jsOr c.reason c.message
         | none => some "")) := by
  have hst : (formatPodInfo now pod).status = (podStatusPair pod).1 := rfl
  have hsr : (formatPodInfo now pod).statusReason = (podStatusPair pod).2 := rfl
  constructor
  · intro hrun
    have hpair : podStatusPair pod =
        ((if (pod.containerStatuses.getD []).all (fun c => c.ready) then "Running"
          else "Not Ready"), some "") := by
      simp only [podStatusPair]
      rw [if_pos hrun]
    rw [hst, hsr, hpair]
    refine ⟨?_, ?_, rfl⟩
    · by_cases hall : (pod.containerStatuses.getD []).all (fun c => c.ready) = true
      · rw [if_pos hall]
        simp only [List.all_eq_true] at hall
        exact ⟨fun _ => hall, fun _ => rfl⟩
      · rw [if_neg hall]
        simp only [List.all_eq_true] at hall
        constructor
        · intro hcontr
          exact absurd hcontr (by decide)
        · intro hready
          exact absurd hready hall
    · rintro ⟨c, hc, hcr⟩
      have hall : (pod.containerStatuses.getD []).all (fun c => c.ready) = false := by
        cases hb : (pod.containerStatuses.getD []).all (fun c => c.ready) with
        | false => rfl
        | true =>
          have hcready := List.all_eq_true.mp hb c hc
          rw [hcready] at hcr
          cases hcr
      rw [if_neg (by simp [hall])]
  · intro hnrun
    have hpair : podStatusPair pod =
        (pod.phase,
         (match (pod.conditions.getD []).find? (fun c => c.condStatus = "False") with
          | some c => jsOr c.reason c.message
          | none => some "")) := by
      simp only [podStatusPair]
      rw [if_neg hnrun]
      cases (pod.conditions.getD []).find? (fun c => c.condStatus = "False") with
      | none => rfl
      | some c => rfl
    rw [hst, hsr, hpair]
    exact ⟨rfl, rfl⟩

/-- A Pending raw pod with one non-ready container and a failed condition
carrying only a message (witness input for C7). -/
def wPodPending : PodRaw :=
  ⟨"p", "librechat", "Pending", some [⟨"c", false, some 0, "img", ["waiting"]⟩],
   some [⟨"False", none, some "containers not ready"⟩], 0, none, none, none, []⟩

/-- A Running raw pod with one non-ready container (witness input for C7). -/
def wPodRunningNotReady : PodRaw :=
  ⟨"q", "librechat", "Running", some [⟨"c", false, some 0, "img", ["running"]⟩],
   some [], 0, none, none, none, []⟩

/-- C7 (witness): a Pending pod with one non-ready container and a failed
condition carrying only a message gets status "Pending" and that message as
`statusReason`; a Running pod with one non-ready container gets status
"Not Ready". -/
theorem podStatusDerivation_witness :
    (formatPodInfo 0 wPodPending).status = "Pending" ∧
    (formatPodInfo 0 wPodPending).statusReason = some "containers not ready" ∧
    (formatPodInfo 0 wPodRunningNotReady).status = "Not Ready" := by
  refine ⟨((podStatusDerivation 0 wPodPending).2 (by decide)).1, ?_, ?_⟩
  · rw [((podStatusDerivation 0 wPodPending).2 (by decide)).2]
    decide
  · exact ((podStatusDerivation 0 wPodRunningNotReady).1 rfl).2.1
      ⟨⟨"c", false, some 0, "img", ["running"]⟩, by decide, rfl⟩

/-- C6: the health rollup. An empty bucket is down / "No pods found"; a
nonempty bucket with no Running pod is down / "No running pods"; a bucket
with some but not all pods Running is degraded / "Some pods not running"; a
nonempty bucket with all pods Running is healthy / "All pods running". For
the mongodb bucket a successful store ping overrides the pod-derived result
with healthy regardless of pod state, and a failed ping yields down with the
ping error message (prefixed "Connection error: ") as reason. -/
theorem healthRollup (pods : List PodInfo) (msg : String) :
    (pods = [] → getServiceStatus pods = ⟨"down", "No pods found"⟩) ∧
    (pods ≠ [] → (∀ p ∈ pods, p.status ≠ "Running") →
      getServiceStatus pods = ⟨"down", "No running pods"⟩) ∧
    ((∃ p ∈ pods, p.status = "Running") → (∃ p ∈ pods, p.status ≠ "Running") →
      getServiceStatus pods = ⟨"degraded", "Some pods not running"⟩) ∧
    (pods ≠ [] → (∀ p ∈ pods, p.status = "Running") →
      getServiceStatus pods = ⟨"healthy", "All pods running"⟩) ∧
    (mongoServiceStatus pods (some .ok) = ⟨"healthy", "Connected and responsive"⟩) ∧
    (mongoServiceStatus pods (some (.fail msg)) =
      ⟨"down", "Connection error: " ++ msg⟩) := by
  have hple : ∀ (l : List PodInfo), l ≠ [] → l.isEmpty = false := by
    intro l hl
    cases l with
    | nil => exact absurd rfl hl
    | cons x xs => rfl
  refine ⟨?_, ?_, ?_, ?_, rfl, rfl⟩
  · intro h
    subst h
    rfl
  · intro hne hno
    have hfil : pods.filter (fun p => p.status = "Running") = [] := by
      apply List.filter_eq_nil_iff.mpr
      intro a ha
      simp only [decide_eq_true_eq]
      exact hno a ha
    simp only [getServiceStatus, hple pods hne, Bool.false_eq_true, if_false, hfil]
    rfl
  · rintro ⟨p, hp, hprun⟩ ⟨q, hq, hqnrun⟩
    have hne : pods.isEmpty = false := hple pods (by rintro rfl; cases hp)
    have hmem : p ∈ pods.filter (fun p => p.status = "Running") := by
      simp only [List.mem_filter, decide_eq_true_eq]
      exact ⟨hp, hprun⟩
    have hpos : (pods.filter (fun p => p.status = "Running")).length ≠ 0 := by
      intro h0
      rw [List.length_eq_zero] at h0
      rw [h0] at hmem
      cases hmem
    have hlt : (pods.filter (fun p => p.status = "Running")).length < pods.length := by
      apply length_filter_lt_of_exists_not
      exact ⟨q, hq, by simp [hqnrun]⟩
    simp only [getServiceStatus, hne, Bool.false_eq_true, if_false, if_neg hpos, if_pos hlt]
  · intro hne hall
    have hfil : pods.filter (fun p => p.status = "Running") = pods := by
      apply List.filter_eq_self.mpr
      intro a ha
      simp only [decide_eq_true_eq]
      exact hall a ha
    have hpos : pods.length ≠ 0 := by
      intro h0
      exact hne (List.length_eq_zero.mp h0)
    simp only [getServiceStatus, hple pods hne, Bool.false_eq_true, if_false, hfil,
      if_neg hpos, lt_irrefl, if_false]

/-- A formatted pod with derived status "Running" (witness input for C6). -/
def wInfoRunning : PodInfo :=
  ⟨"a::p", "p", "a", "Running", some "", "Running", "1/1", 0, "0s", 0,
   "N/A", "N/A", [], []⟩

/-- A formatted pod with derived status "Pending" (witness input for C6). -/
def wInfoPending : PodInfo :=
  ⟨"a::q", "q", "a", "Pending", some "", "Pending", "0/1", 0, "0s", 0,
   "N/A", "N/A", [], []⟩

/-- C6 (witness): a bucket with one Running and one Pending-status pod is
degraded; an empty bucket is down / "No pods found"; a failed ping reports
the connection error. -/
theorem healthRollup_witness :
    getServiceStatus [wInfoRunning, wInfoPending] = ⟨"degraded", "Some pods not running"⟩ ∧
    getServiceStatus [] = ⟨"down", "No pods found"⟩ ∧
    mongoServiceStatus [] (some (.fail "timeout")) =
      ⟨"down", "Connection error: timeout"⟩ := by
  refine ⟨?_, ?_, ?_⟩
  · exact (healthRollup [wInfoRunning, wInfoPending] "").2.2.1
      ⟨wInfoRunning, by decide, rfl⟩ ⟨wInfoPending, by decide, by decide⟩
  · exact (healthRollup [] "").1 rfl
  · exact (healthRollup [] "timeout").2.2.2.2.2

/-- C9: a path id that is not a valid ObjectId string makes the
`new ObjectId(req.params.id)` constructor throw inside the handler's try
block, so `GET /api/users/:id` and `DELETE /api/users/:id` answer 500 with
the constructor's error message (and the store untouched) — not a 400
validation error and not a 404. -/
theorem invalidObjectId500 (s : Store) (idParam : String) (h : Headers)
    (ip : Option String) (now : Nat) (b : Bool)
    (hbad : isValidOidString idParam = false) :
    getUsersById s idParam = ⟨500, .err objectIdErrMsg⟩ ∧
    deleteUsers s idParam h ip now b = (⟨500, .err objectIdErrMsg⟩, s) := by
  have hmk : mkObjectId idParam = .error objectIdErrMsg := by
    simp [mkObjectId, hbad]
  exact ⟨by simp [getUsersById, hmk], by simp [deleteUsers, hmk]⟩

/-- C9 (witness): the 22-character id "not-a-valid-objectid-x" is rejected
with 500 and the constructor message on both endpoints. -/
theorem invalidObjectId500_witness :
    getUsersById emptyStore "not-a-valid-objectid-x" = ⟨500, .err objectIdErrMsg⟩ ∧
    deleteUsers emptyStore "not-a-valid-objectid-x" noHeaders none 0 true =
      (⟨500, .err objectIdErrMsg⟩, emptyStore) :=
  invalidObjectId500 emptyStore "not-a-valid-objectid-x" noHeaders none 0 true (by decide)

/-- C2: audit-write failure is invisible to the caller. `createAuditLog`
swallows a failing insert and returns the store unchanged (its type shows it
never propagates an error), and for every modelled mutating handler —
user create/delete, conversation delete, role create/update/delete,
deployment restart, kubectl execute — the HTTP status and body are
identical whether the audit insert succeeds (`true`) or throws (`false`).
All other mutating handlers in the source call `createAuditLog` in exactly
the same tail position. -/
theorem auditFailureInvisible (s : Store) (cl : Cluster) (body : UserInput)
    (rbody : RoleInput) (rupd : RoleUpdate) (idParam : String)
    (cmd nsb : Option String) (h : Headers) (ip : Option String) (now : Nat)
    (newOid : String) (action resource resourceId userEmail userName : String)
    (data : AuditData) :
    createAuditLog s false action resource resourceId userEmail userName data ip now = s ∧
    (postUsers s body h ip now newOid true).1 = (postUsers s body h ip now newOid false).1 ∧
    (deleteUsers s idParam h ip now true).1 = (deleteUsers s idParam h ip now false).1 ∧
    (deleteConvos s idParam h ip now true).1 = (deleteConvos s idParam h ip now false).1 ∧
    (postRoles s rbody h ip now newOid true).1 = (postRoles s rbody h ip now newOid false).1 ∧
    (putRoles s idParam rupd h ip now true).1 = (putRoles s idParam rupd h ip now false).1 ∧
    (deleteRoles s idParam h ip now true).1 = (deleteRoles s idParam h ip now false).1 ∧
    (postDeploymentsRestart s cl idParam h ip now true).1 =
      (postDeploymentsRestart s cl idParam h ip now false).1 ∧
    (postKubectlExecute s cl cmd nsb h ip now true).1 =
      (postKubectlExecute s cl cmd nsb h ip now false).1 := by
  refine ⟨rfl, rfl, ?_, ?_, ?_, ?_, ?_, ?_, ?_⟩
  · unfold deleteUsers
    cases mkObjectId idParam with
    | error msg => rfl
    | ok oid =>
      dsimp only
      by_cases hc : (s.users.any fun u => decide (u.oid = oid)) = true
      · rw [if_pos hc, if_pos hc]
      · rw [if_neg hc, if_neg hc]
  · unfold deleteConvos
    dsimp only
    by_cases hc : (s.conversations.any fun c => decide (c.conversationId = some idParam)) = true
    · rw [if_pos hc, if_pos hc]
    · rw [if_neg hc, if_neg hc]
  · unfold postRoles
    by_cases hn : truthyS rbody.name = true
    · rw [if_neg (by simp [hn]), if_neg (by simp [hn])]
      dsimp only
      cases s.roles.find? (fun r => r.name = rbody.name.getD "") with
      | none => rfl
      | some r0 => rfl
    · rw [if_pos (by simp [hn]), if_pos (by simp [hn])]
  · unfold putRoles putRolesUpdate
    by_cases hn : truthyS rupd.name = true
    · rw [if_pos hn, if_pos hn]
      cases mkObjectId idParam with
      | error msg => rfl
      | ok oid =>
        dsimp only
        cases s.roles.find? (fun r => r.name = rupd.name.getD "" && r.oid ≠ oid) with
        | some r1 => rfl
        | none =>
          dsimp only
          cases s.roles.find? (fun r => r.oid = oid) with
          | none => rfl
          | some r => rfl
    · rw [if_neg hn, if_neg hn]
      cases mkObjectId idParam with
      | error msg => rfl
      | ok oid =>
        dsimp only
        cases s.roles.find? (fun r => r.oid = oid) with
        | none => rfl
        | some r => rfl
  · unfold deleteRoles deleteRolesProceed
    cases mkObjectId idParam with
    | error msg => rfl
    | ok oid =>
      dsimp only
      cases s.roles.find? (fun r => r.oid = oid) with
      | none =>
        dsimp only
        by_cases hc : (s.roles.any fun r => decide (r.oid = oid)) = true
        · rw [if_pos hc, if_pos hc]
        · rw [if_neg hc, if_neg hc]
      | some role =>
        dsimp only
        by_cases hg : (s.users.filter (fun u => u.role = some role.name)).length > 0
        · rw [if_pos hg, if_pos hg]
        · rw [if_neg hg, if_neg hg]
          by_cases hc : (s.roles.any fun r => decide (r.oid = oid)) = true
          · rw [if_pos hc, if_pos hc]
          · rw [if_neg hc, if_neg hc]
  · unfold postDeploymentsRestart
    dsimp only
    by_cases hl : (idParam.splitOn "::").length ≠ 2
    · rw [if_pos hl, if_pos hl]
    · rw [if_neg hl, if_neg hl]
      by_cases he : (idParam.splitOn "::").getD 0 "" = "" ∨ (idParam.splitOn "::").getD 1 "" = ""
      · rw [if_pos he, if_pos he]
      · rw [if_neg he, if_neg he]
        cases restartDeployment cl now ((idParam.splitOn "::").getD 0 "")
            ((idParam.splitOn "::").getD 1 "") with
        | error e => rfl
        | ok d => rfl
  · unfold postKubectlExecute
    by_cases hc : truthyS cmd = true
    · rw [if_neg (by simp [hc]), if_neg (by simp [hc])]
      dsimp only
      cases executeKubectlCommand cl now (cmd.getD "")
          ⟨some (nsb.getD "default"), some ["get", "describe", "logs", "top", "explain"]⟩ with
      | mk out calls =>
        cases out with
        | thrown msg => rfl
        | ok result => rfl
    · rw [if_pos (by simp [hc]), if_pos (by simp [hc])]

/-- C4: the role-deletion referential guard. When the role exists (the
lookup by the path id finds it) and at least one user document's `role`
field equals the role's name, the handler answers 400 with a message
stating the count of blocking users and leaves the store — in particular
the role document — unchanged: the delete is never executed. -/
theorem roleDeleteGuard (s : Store) (idParam : String) (h : Headers)
    (ip : Option String) (now : Nat) (b : Bool) (role : RoleDoc)
    (hvalid : isValidOidString idParam = true)
    (hfind : s.roles.find? (fun r => r.oid = idParam) = some role)
    (hcount : 0 < (s.users.filter (fun u => u.role = some role.name)).length) :
    deleteRoles s idParam h ip now b =
      (⟨400, .err ("Cannot delete role. " ++
          toString (s.users.filter (fun u => u.role = some role.name)).length ++
          " user(s) are assigned this role.")⟩, s) := by
  have hmk : mkObjectId idParam = .ok idParam := by
    simp [mkObjectId, hvalid]
  unfold deleteRoles
  rw [hmk]
  simp only [hfind]
  rw [if_pos hcount]

/-- Witness store for C4: one role "ADMIN" and one user assigned to it. -/
def c4Store : Store :=
  ⟨[⟨"bbbbbbbbbbbbbbbbbbbbbbbb", some "alice", some "Alice", some "alice@x.y",
     some "ADMIN", none, some true, none, 0, 0⟩],
   [⟨"aaaaaaaaaaaaaaaaaaaaaaaa", "ADMIN", defaultPermissions⟩],
   [], [], [], []⟩

/-- C4 (witness): deleting the referenced "ADMIN" role is refused with 400,
the count-bearing message, and an unchanged store. -/
theorem roleDeleteGuard_witness :
    deleteRoles c4Store "aaaaaaaaaaaaaaaaaaaaaaaa" noHeaders none 0 true =
      (⟨400, .err ("Cannot delete role. " ++
          toString (c4Store.users.filter
            (fun u => u.role = some "ADMIN")).length ++
          " user(s) are assigned this role.")⟩, c4Store) :=
  roleDeleteGuard c4Store "aaaaaaaaaaaaaaaaaaaaaaaa" noHeaders none 0 true
    ⟨"aaaaaaaaaaaaaaaaaaaaaaaa", "ADMIN", defaultPermissions⟩
    (by decide) (by decide) (by decide)

/-- C5: role-name uniqueness is enforced on both role writes.
`POST /api/roles` with a (truthy) name already carried by a stored role
answers 400 "Role with this name already exists" and leaves the store
unchanged, so when exactly one role carried the name beforehand exactly one
does afterwards; `PUT /api/roles/:id` renaming a role to a name carried by a
role with a different key likewise answers 400 and changes nothing. -/
theorem roleNameUniqueness (s : Store) (bodyC : RoleInput) (bodyU : RoleUpdate)
    (idParam : String) (h : Headers) (ip : Option String) (now : Nat)
    (newOid : String) (b : Bool) (r0 r1 : RoleDoc) :
    (truthyS bodyC.name = true →
      s.roles.find? (fun r => r.name = bodyC.name.getD "") = some r0 →
      postRoles s bodyC h ip now newOid b =
        (⟨400, .err "Role with this name already exists"⟩, s) ∧
      ((s.roles.filter (fun r => r.name = bodyC.name.getD "")).length = 1 →
        ((postRoles s bodyC h ip now newOid b).2.roles.filter
          (fun r => r.name = bodyC.name.getD "")).length = 1)) ∧
    (truthyS bodyU.name = true → isValidOidString idParam = true →
      s.roles.find? (fun r => r.name = bodyU.name.getD "" && r.oid ≠ idParam) = some r1 →
      putRoles s idParam bodyU h ip now b =
        (⟨400, .err "Role with this name already exists"⟩, s)) := by
  constructor
  · intro hn hfind
    have hpost : postRoles s bodyC h ip now newOid b =
        (⟨400, .err "Role with this name already exists"⟩, s) := by
      unfold postRoles
      rw [if_neg (by simp [hn])]
      simp only [hfind]
    refine ⟨hpost, fun hone => ?_⟩
    rw [hpost]
    exact hone
  · intro hn hvalid hfind
    have hmk : mkObjectId idParam = .ok idParam := by
      simp [mkObjectId, hvalid]
    unfold putRoles
    rw [if_pos hn, hmk]
    simp only [hfind]

/-- Witness store for C5: roles "ADMIN" and "USER". -/
def c5Store : Store :=
  ⟨[],
   [⟨"aaaaaaaaaaaaaaaaaaaaaaaa", "ADMIN", defaultPermissions⟩,
    ⟨"bbbbbbbbbbbbbbbbbbbbbbbb", "USER", defaultPermissions⟩],
   [], [], [], []⟩

/-- C5 (witness): creating a second "ADMIN" role fails with 400 leaving
exactly one "ADMIN" role, and renaming the "USER" role to "ADMIN" fails with
400 leaving the store unchanged. -/
theorem roleNameUniqueness_witness :
    postRoles c5Store ⟨some "ADMIN", none⟩ noHeaders none 0 "cccccccccccccccccccccccc" true =
      (⟨400, .err "Role with this name already exists"⟩, c5Store) ∧
    ((postRoles c5Store ⟨some "ADMIN", none⟩ noHeaders none 0 "cccccccccccccccccccccccc" true).2.roles.filter
        (fun r => r.name = (some "ADMIN" : Option String).getD "")).length = 1 ∧
    putRoles c5Store "bbbbbbbbbbbbbbbbbbbbbbbb" ⟨some "ADMIN", none⟩ noHeaders none 0 true =
      (⟨400, .err "Role with this name already exists"⟩, c5Store) := by
  have h := roleNameUniqueness c5Store ⟨some "ADMIN", none⟩ ⟨some "ADMIN", none⟩
    "bbbbbbbbbbbbbbbbbbbbbbbb" noHeaders none 0 "cccccccccccccccccccccccc" true
    ⟨"aaaaaaaaaaaaaaaaaaaaaaaa", "ADMIN", defaultPermissions⟩
    ⟨"aaaaaaaaaaaaaaaaaaaaaaaa", "ADMIN", defaultPermissions⟩
  have h1 := h.1 (by decide) (by decide)
  exact ⟨h1.1, h1.2 (by decide), h.2 (by decide) (by decide) (by decide)⟩

/-- A conversation document with no `conversationId` field (counterexample
input for C3). -/
def convoNoCid : ConvoDoc :=
  ⟨"aaaaaaaaaaaaaaaaaaaaaaaa", none, some "Orphan", some "u", none, none, 0, 0⟩

/-- Store with a single conversation lacking `conversationId` (C3). -/
def c3Store : Store := ⟨[], [], [convoNoCid], [], [], []⟩

/-- C3 (counterexample): the identity round-trip fails for conversations.
With one stored conversation lacking a `conversationId`, the list response
exposes `id = "aaaaaaaaaaaaaaaaaaaaaaaa"` (the store key, per the fallback),
but `GET /api/convos/:id` with exactly that id answers 404, because the
lookup filters only on the `conversationId` field. -/
theorem convoRoundTrip_counterexample :
    ((listConvos c3Store 1 25 "desc").body.1.map (fun e => e.id)) =
      ["aaaaaaaaaaaaaaaaaaaaaaaa"] ∧
    getConvosById c3Store "aaaaaaaaaaaaaaaaaaaaaaaa" =
      ⟨404, .err "Conversation not found"⟩ := by
  exact ⟨rfl, rfl⟩

/-- C3 (amended): the identity round-trip holds with the following key
provisos. Every element of a list response is the formatting of a stored
document. A user document with a well-formed, store-unique key round-trips
through `GET /api/users/:id`; an agent document that carries the
application-assigned `id` field, unique in the store, round-trips through
`GET /api/agents/:id`; and a conversation document round-trips through
`GET /api/convos/:id` provided its `conversationId` is present and nonempty
(and unique) — for a conversation without `conversationId` the list id falls
back to the store key and the get-by-id then misses (see the
counterexample). -/
theorem identityRoundTrip_amended (s : Store) (page limit : Nat) (order : String)
    (u : UserDoc) (a : AgentDoc) (c : ConvoDoc) (aid cid : String) :
    (∀ e ∈ (listUsers s page limit order).body.1,
        ∃ u' ∈ s.users, e = formatUserListItem u') ∧
    (∀ e ∈ (listAgents s page limit order).body.1,
        ∃ a' ∈ s.agents, e = formatAgentListItem a') ∧
    (∀ e ∈ (listConvos s page limit order).body.1,
        ∃ c' ∈ s.conversations, e = formatConvoListItem c') ∧
    (u ∈ s.users → isValidOidString u.oid = true →
      (∀ v ∈ s.users, v.oid = u.oid → v = u) →
      (formatUserListItem u).id = u.oid ∧ getUsersById s u.oid = ⟨200, .doc u⟩) ∧
    (a ∈ s.agents → a.aid = some aid →
      (∀ b ∈ s.agents, b.aid = some aid → b = a) →
      (formatAgentListItem a).id = aid ∧ getAgentsById s aid = ⟨200, .doc a⟩) ∧
    (c ∈ s.conversations → c.conversationId = some cid → cid ≠ "" →
      (∀ d ∈ s.conversations, d.conversationId = some cid → d = c) →
      (formatConvoListItem c).id = cid ∧ getConvosById s cid = ⟨200, .doc c⟩) := by
  have hprov : ∀ {α β : Type} (l : List α) (f : α → β) (key : α → Nat) (desc : Bool)
      (e : β), e ∈ (paginate page limit (sortNatKey desc key l)).map f →
      ∃ x ∈ l, e = f x := by
    intro α β l f key desc e he
    rcases List.mem_map.mp he with ⟨x, hx, hfx⟩
    have hx' : x ∈ l := (mem_sortBy _ x l).mp (mem_paginate _ _ _ _ hx)
    exact ⟨x, hx', hfx.symm⟩
  refine ⟨?_, ?_, ?_, ?_, ?_, ?_⟩
  · intro e he
    exact hprov s.users formatUserListItem (fun u => u.createdAt) (order = "desc") e he
  · intro e he
    exact hprov s.agents formatAgentListItem (fun a => a.createdAt) (order = "desc") e he
  · intro e he
    exact hprov s.conversations formatConvoListItem (fun c => c.createdAt) (order = "desc") e he
  · intro hu hval huniq
    have hfind : s.users.find? (fun v => v.oid = u.oid) = some u :=
      find_eq_of_unique s.users _ u hu (by simp)
        (fun b hb hpb => huniq b hb (by simpa using hpb))
    refine ⟨rfl, ?_⟩
    unfold getUsersById
    rw [show mkObjectId u.oid = .ok u.oid by simp [mkObjectId, hval]]
    simp only [hfind]
  · intro ha haid huniq
    have hfind : s.agents.find? (fun b => b.aid = some aid) = some a :=
      find_eq_of_unique s.agents _ a ha (by simp [haid])
        (fun b hb hpb => huniq b hb (by simpa using hpb))
    refine ⟨?_, ?_⟩
    · simp [formatAgentListItem, haid]
    · unfold getAgentsById
      simp only [hfind]
  · intro hc hcid hne huniq
    have hfind : s.conversations.find? (fun d => d.conversationId = some cid) = some c :=
      find_eq_of_unique s.conversations _ c hc (by simp [hcid])
        (fun d hd hpd => huniq d hd (by simpa using hpd))
    refine ⟨?_, ?_⟩
    · simp [formatConvoListItem, hcid, jsOrD_pos cid _ hne]
    · unfold getConvosById
      simp only [hfind]

/-- Witness store for C3: one user, one agent with application id, one
conversation with `conversationId`. -/
def c3wStore : Store :=
  ⟨[⟨"dddddddddddddddddddddddd", some "bob", some "Bob", some "bob@x.y",
     some "USER", none, some false, none, 5, 5⟩],
   [],
   [⟨"eeeeeeeeeeeeeeeeeeeeeeee", some "conv-1", some "Chat", some "bob", none, none, 7, 7⟩],
   [⟨"ffffffffffffffffffffffff", some "agent_ABCDEFGHIJKLMNOPQRSTU", some "Helper",
     none, none, none, 9, 9⟩],
   [], []⟩

/-- C3 (witness for the amended theorem): in `c3wStore` the user, agent and
conversation all round-trip: the list id of each equals the declared key and
the get-by-id returns the same stored document. -/
theorem identityRoundTrip_amended_witness :
    (getUsersById c3wStore "dddddddddddddddddddddddd" =
      ⟨200, .doc ⟨"dddddddddddddddddddddddd", some "bob", some "Bob", some "bob@x.y",
        some "USER", none, some false, none, 5, 5⟩⟩) ∧
    (getAgentsById c3wStore "agent_ABCDEFGHIJKLMNOPQRSTU" =
      ⟨200, .doc ⟨"ffffffffffffffffffffffff", some "agent_ABCDEFGHIJKLMNOPQRSTU",
        some "Helper", none, none, none, 9, 9⟩⟩) ∧
    (getConvosById c3wStore "conv-1" =
      ⟨200, .doc ⟨"eeeeeeeeeeeeeeeeeeeeeeee", some "conv-1", some "Chat", some "bob",
        none, none, 7, 7⟩⟩) := by
  have h := identityRoundTrip_amended c3wStore 1 25 "desc"
    ⟨"dddddddddddddddddddddddd", some "bob", some "Bob", some "bob@x.y",
      some "USER", none, some false, none, 5, 5⟩
    ⟨"ffffffffffffffffffffffff", some "agent_ABCDEFGHIJKLMNOPQRSTU", some "Helper",
      none, none, none, 9, 9⟩
    ⟨"eeeeeeeeeeeeeeeeeeeeeeee", some "conv-1", some "Chat", some "bob", none, none, 7, 7⟩
    "agent_ABCDEFGHIJKLMNOPQRSTU" "conv-1"
  refine ⟨?_, ?_, ?_⟩
  · exact (h.2.2.2.1 (by decide) (by decide) (by decide)).2
  · exact (h.2.2.2.2.1 (by decide) (by decide) (by decide)).2
  · exact (h.2.2.2.2.2 (by decide) (by decide) (by decide) (by decide)).2

/-- A member of the grouped aggregate is the aggregate of its own user key. -/
theorem mem_groupByUser (ts : List TxnDoc) (st : UserAgg)
    (h : st ∈ groupByUser ts) : st = userAggFor ts st.user := by
  unfold groupByUser at h
  rcases List.mem_map.mp h with ⟨u, _, rfl⟩
  rfl

/-- C8: the monthly cost statistic. The pipeline keeps exactly the
transactions of the month window; every emitted group's `totalTokens`
(resp. `totalValue`) is the sum of absolute values of the signed raw token
amounts (resp. token values) of that user's in-window transactions; the
output is in descending `totalTokens` order and holds at most 10 groups;
each joined top consumer's estimated cost is `totalTokens / 1000 × 0.03`;
and the second aggregate computes the same absolute sum over all users of
the window, with the same cost formula for the overall estimate. -/
theorem costStatsAggregation (s : Store) (startM endM : Nat) (st : UserAgg) :
    (∀ t ∈ monthFilter startM endM s.transactions,
        startM ≤ t.createdAt ∧ t.createdAt ≤ endM) ∧
    (∀ t ∈ s.transactions, startM ≤ t.createdAt → t.createdAt ≤ endM →
        t ∈ monthFilter startM endM s.transactions) ∧
    (st ∈ monthlyTopConsumersAgg startM endM s.transactions →
      st.totalTokens = (((monthFilter startM endM s.transactions).filter
          (fun t => t.user = st.user)).map (fun t => t.rawAmount.natAbs)).sum ∧
      st.totalValue = (((monthFilter startM endM s.transactions).filter
          (fun t => t.user = st.user)).map (fun t => t.tokenValue.natAbs)).sum) ∧
    (monthlyTopConsumersAgg startM endM s.transactions).Pairwise
        (fun a b => b.totalTokens ≤ a.totalTokens) ∧
    (monthlyTopConsumersAgg startM endM s.transactions).length ≤ 10 ∧
    (∀ tc ∈ (costStats s startM endM).1,
        tc.cost = (tc.totalTokens : ℚ) / 1000 * (3 / 100)) ∧
    (overallMonthAgg startM endM s.transactions).totalTokens =
      ((monthFilter startM endM s.transactions).map (fun t => t.rawAmount.natAbs)).sum ∧
    (costStats s startM endM).2.2 =
      ((overallMonthAgg startM endM s.transactions).totalTokens : ℚ) / 1000 * (3 / 100) := by
  refine ⟨?_, ?_, ?_, ?_, ?_, ?_, rfl, rfl⟩
  · intro t ht
    have h2 := (List.mem_filter.mp ht).2
    simp only [Bool.and_eq_true, decide_eq_true_eq] at h2
    exact h2
  · intro t ht h1 h2
    exact List.mem_filter.mpr ⟨ht, by simp [h1, h2]⟩
  · intro hmem
    have hg : st ∈ groupByUser (monthFilter startM endM s.transactions) :=
      (mem_sortBy _ st _).mp (List.mem_of_mem_take hmem)
    have heq := mem_groupByUser _ st hg
    constructor
    · conv_lhs => rw [heq]
      rfl
    · conv_lhs => rw [heq]
      rfl
  · have hp := pairwise_sortBy aggSortLe
      (fun a b => by
        unfold aggSortLe
        rcases Nat.le_total b.totalTokens a.totalTokens with hle | hle
        · exact Or.inl (decide_eq_true hle)
        · exact Or.inr (decide_eq_true hle))
      (fun a b c hab hbc => by
        unfold aggSortLe at hab hbc ⊢
        exact decide_eq_true (Nat.le_trans (of_decide_eq_true hbc) (of_decide_eq_true hab)))
      (groupByUser (monthFilter startM endM s.transactions))
    have hq := hp.sublist (List.take_sublist 10 _)
    exact hq.imp (fun hab => of_decide_eq_true hab)
  · exact List.length_take_le 10 _
  · intro tc htc
    rcases List.mem_map.mp htc with ⟨st', _, rfl⟩
    rfl

/-- Witness store for C8: three transactions of one user in the window with
signed raw amounts −100, −250 and 50. -/
def c8Store : Store :=
  ⟨[], [], [], [],
   [⟨"011111111111111111111111", "u1", -100, -100, 5⟩,
    ⟨"022222222222222222222222", "u1", -250, -250, 6⟩,
    ⟨"033333333333333333333333", "u1", 50, 50, 7⟩],
   []⟩

/-- C8 (witness): the user with signed raw amounts [−100, −250, 50] in the
month has `totalTokens = 400` (the sum of absolute values), and the top-10
truncation bound holds. -/
theorem costStatsAggregation_witness :
    (⟨"u1", 400, 400, 3⟩ : UserAgg).totalTokens =
      (((monthFilter 0 1000000 c8Store.transactions).filter
        (fun t => t.user = (⟨"u1", 400, 400, 3⟩ : UserAgg).user)).map
        (fun t => t.rawAmount.natAbs)).sum ∧
    (monthlyTopConsumersAgg 0 1000000 c8Store.transactions).length ≤ 10 := by
  have h := costStatsAggregation c8Store 0 1000000 ⟨"u1", 400, 400, 3⟩
  exact ⟨(h.2.2.1 (by decide)).1, h.2.2.2.2.1⟩

/-- C1 (code bug, evaluation at the failing inputs): for the disallowed verb
command line "delete pod x" — and likewise for the allowed-but-unimplemented
verb "top" and an unsupported resource type under "get" —
`executeKubectlCommand` does not resolve to the intended structured
`{output, error, exitCode}` object: the error is caught, but the catch block
reads the try-scoped `namespace` binding and the function rejects with
`ReferenceError: namespace is not defined` (while indeed invoking no
control-plane operation, second component `[]`); the HTTP route then answers
500 `{error: "namespace is not defined"}` instead of a result naming the
disallowed verb. -/
theorem kubectlDisallowed_evaluation (cl : Cluster) (now : Nat) (s : Store)
    (h : Headers) (ip : Option String) (b : Bool) :
    executeKubectlCommand cl now "delete pod x" ⟨none, none⟩ =
      (.thrown "namespace is not defined", []) ∧
    executeKubectlCommand cl now "top pods" ⟨none, none⟩ =
      (.thrown "namespace is not defined", []) ∧
    executeKubectlCommand cl now "get configmaps" ⟨none, none⟩ =
      (.thrown "namespace is not defined", []) ∧
    postKubectlExecute s cl (some "delete pod x") none h ip now b =
      (⟨500, .err "namespace is not defined"⟩, s) := by
  refine ⟨rfl, rfl, rfl, rfl⟩

end LibreChatAdmin
